import Mathlib

/-!
Verification of the poverty-explorer MPI engine.

Shallow embedding of the scoring and weighting engine found in
`src/models/mpi.py`, `src/models/enhanced_mpi.py` and the weighting half of
`src/models/cells.py`.  Python floats are modelled as rationals (ℚ), Python
dictionaries with a fixed key set as Lean structures, fallible constructors
(`__post_init__` validation) as `Except String`-valued smart constructors, and
`Optional` arguments as `Option` with the source's defaulting behaviour.
-/

/-! ### Data model: deprivation scores (src/models/mpi.py, DeprivationScore) -/

/-- Individual deprivation scores for each MPI indicator (0-1 scale).
Mirrors the `DeprivationScore` dataclass field for field. -/
structure DeprivationScore where
  nutrition : ℚ
  child_mortality : ℚ
  years_schooling : ℚ
  school_attendance : ℚ
  electricity : ℚ
  sanitation : ℚ
  drinking_water : ℚ
  flooring : ℚ
  cooking_fuel : ℚ
  assets : ℚ
deriving DecidableEq

/-- Checked constructor mirroring `DeprivationScore.__post_init__`: every field
is validated to lie in [0,1], in field order, and the first violation raises. -/
def mkDeprivationScore (nutrition child_mortality years_schooling
    school_attendance electricity sanitation drinking_water flooring
    cooking_fuel assets : ℚ) : Except String DeprivationScore :=
  if ¬ (0 ≤ nutrition ∧ nutrition ≤ 1) then
    Except.error ("nutrition must be between 0 and 1")
  else if ¬ (0 ≤ child_mortality ∧ child_mortality ≤ 1) then
    Except.error ("child_mortality must be between 0 and 1")
  else if ¬ (0 ≤ years_schooling ∧ years_schooling ≤ 1) then
    Except.error ("years_schooling must be between 0 and 1")
  else if ¬ (0 ≤ school_attendance ∧ school_attendance ≤ 1) then
    Except.error ("school_attendance must be between 0 and 1")
  else if ¬ (0 ≤ electricity ∧ electricity ≤ 1) then
    Except.error ("electricity must be between 0 and 1")
  else if ¬ (0 ≤ sanitation ∧ sanitation ≤ 1) then
    Except.error ("sanitation must be between 0 and 1")
  else if ¬ (0 ≤ drinking_water ∧ drinking_water ≤ 1) then
    Except.error ("drinking_water must be between 0 and 1")
  else if ¬ (0 ≤ flooring ∧ flooring ≤ 1) then
    Except.error ("flooring must be between 0 and 1")
  else if ¬ (0 ≤ cooking_fuel ∧ cooking_fuel ≤ 1) then
    Except.error ("cooking_fuel must be between 0 and 1")
  else if ¬ (0 ≤ assets ∧ assets ≤ 1) then
    Except.error ("assets must be between 0 and 1")
  else
    Except.ok ⟨nutrition, child_mortality, years_schooling, school_attendance,
      electricity, sanitation, drinking_water, flooring, cooking_fuel, assets⟩

/-- Household-level poverty data (`HouseholdData`). -/
structure HouseholdData where
  household_id : String
  cell_id : String
  deprivations : DeprivationScore
  household_size : ℤ
  num_children : Option ℤ := none
  num_elderly : Option ℤ := none
deriving DecidableEq

/-! ### Weight tables over the ten core indicators -/

/-- A weight table keyed by the ten core MPI indicators (the Python code uses a
dict whose keys are exactly these ten names). -/
structure Weights where
  nutrition : ℚ
  child_mortality : ℚ
  years_schooling : ℚ
  school_attendance : ℚ
  electricity : ℚ
  sanitation : ℚ
  drinking_water : ℚ
  flooring : ℚ
  cooking_fuel : ℚ
  assets : ℚ
deriving DecidableEq

/-- Sum of all ten entries of a weight table (`sum(weights.values())`). -/
def Weights.total (w : Weights) : ℚ :=
  w.nutrition + w.child_mortality + w.years_schooling + w.school_attendance +
    w.electricity + w.sanitation + w.drinking_water + w.flooring +
    w.cooking_fuel + w.assets

/-- Divide every entry by the table's total (`{k: v/total for k, v in ...}`). -/
def Weights.normalize (w : Weights) : Weights :=
  ⟨w.nutrition / w.total, w.child_mortality / w.total,
    w.years_schooling / w.total, w.school_attendance / w.total,
    w.electricity / w.total, w.sanitation / w.total,
    w.drinking_water / w.total, w.flooring / w.total,
    w.cooking_fuel / w.total, w.assets / w.total⟩

/-- `MPICalculator.STANDARD_WEIGHTS`: 1/6 for the four health/education
indicators, 1/18 for the six living-standards indicators. -/
def STANDARD_WEIGHTS : Weights :=
  ⟨1/6, 1/6, 1/6, 1/6, 1/18, 1/18, 1/18, 1/18, 1/18, 1/18⟩

/-- `MPICalculator.POVERTY_CUTOFF = 0.33`. -/
def POVERTY_CUTOFF : ℚ := 33/100

/-! ### Scoring engine (MPICalculator) -/

/-- `MPICalculator.calculate_deprivation_score`: weighted sum over the ten
indicators; `weights=None` selects the standard table. -/
def calculate_deprivation_score (d : DeprivationScore)
    (weights : Option Weights) : ℚ :=
  let w := weights.getD STANDARD_WEIGHTS
  w.nutrition * d.nutrition + w.child_mortality * d.child_mortality +
    w.years_schooling * d.years_schooling +
    w.school_attendance * d.school_attendance +
    w.electricity * d.electricity + w.sanitation * d.sanitation +
    w.drinking_water * d.drinking_water + w.flooring * d.flooring +
    w.cooking_fuel * d.cooking_fuel + w.assets * d.assets

/-- `MPICalculator.is_poor`: the score meets the cutoff
(defaulting to `POVERTY_CUTOFF`). -/
def is_poor (deprivation_score : ℚ) (cutoff : Option ℚ) : Bool :=
  deprivation_score ≥ cutoff.getD POVERTY_CUTOFF

/-- `MPICalculator.calculate_intensity`: the score itself when poor, else 0. -/
def calculate_intensity (deprivation_score : ℚ) (cutoff : Option ℚ) : ℚ :=
  if deprivation_score ≥ cutoff.getD POVERTY_CUTOFF then deprivation_score
  else 0

/-- Result dict of `calculate_household_mpi`. -/
structure HouseholdMPIResult where
  deprivation_score : ℚ
  is_poor : Bool
  intensity : ℚ
deriving DecidableEq

/-- `MPICalculator.calculate_household_mpi`. -/
def calculate_household_mpi (household : HouseholdData)
    (weights : Option Weights) (cutoff : Option ℚ) : HouseholdMPIResult :=
  let score := calculate_deprivation_score household.deprivations weights
  ⟨score, is_poor score cutoff, calculate_intensity score cutoff⟩

/-- Result dict of `calculate_population_mpi`.  The empty-collection branch of
the source returns a dict without the `avg_deprivation_score` key, modelled
here by `none`.  `headcount` models the `headcount_ratio` entry. -/
structure PopulationMPIResult where
  MPI : ℚ
  headcount : ℚ
  intensity : ℚ
  num_poor : ℕ
  total_population : ℕ
  avg_deprivation_score : Option ℚ
deriving DecidableEq

/-- `MPICalculator.calculate_population_mpi`: headcount ratio H, average
intensity A over the poor, MPI = H × A; the empty collection short-circuits to
the zero-valued result. -/
def calculate_population_mpi (households : List HouseholdData)
    (weights : Option Weights) (cutoff : Option ℚ) : PopulationMPIResult :=
  if households = [] then ⟨0, 0, 0, 0, 0, none⟩
  else
    let results := households.map
      (fun hh => calculate_household_mpi hh weights cutoff)
    let num_poor := (results.filter (fun r => r.is_poor)).length
    let total := households.length
    let headcount := if 0 < total then (num_poor : ℚ) / (total : ℚ) else 0
    let avg_intensity :=
      if 0 < num_poor then
        ((results.filter (fun r => r.is_poor)).map
          (fun r => r.intensity)).sum / (num_poor : ℚ)
      else 0
    ⟨headcount * avg_intensity, headcount, avg_intensity, num_poor, total,
      some ((results.map (fun r => r.deprivation_score)).sum / (total : ℚ))⟩

/-- Result dict of `compare_standard_vs_adjusted`: the two household results
plus the `difference` sub-dict (score delta and classification flag). -/
structure ComparisonResult where
  standard : HouseholdMPIResult
  adjusted : HouseholdMPIResult
  diff_deprivation_score : ℚ
  classification_changed : Bool
deriving DecidableEq

/-- `MPICalculator.compare_standard_vs_adjusted`: scores the household once
under the standard weights (weights=None) and once under the supplied adjusted
table, both at the default cutoff, and reports the differences. -/
def compare_standard_vs_adjusted (household : HouseholdData)
    (adjusted_weights : Weights) : ComparisonResult :=
  let standard := calculate_household_mpi household none none
  let adjusted := calculate_household_mpi household (some adjusted_weights) none
  ⟨standard, adjusted,
    adjusted.deprivation_score - standard.deprivation_score,
    standard.is_poor != adjusted.is_poor⟩

/-! ### Geographic cells and the climate-adjusted weight policy
(src/models/cells.py) -/

/-- Climate characteristics for a geographic cell (`ClimateProfile`). -/
structure ClimateProfile where
  avg_temp_range : ℚ
  heating_degree_days : ℚ
  cooling_degree_days : ℚ
  annual_precipitation : ℚ
  avg_humidity : ℚ
  temp_min : ℚ
  temp_max : ℚ
deriving DecidableEq

/-- `np.clip(x, 0, 1)`. -/
def clip01 (x : ℚ) : ℚ := min (max x 0) 1

/-- `ClimateProfile.climate_harshness`: comfort-zone deviation plus degree-day
load, clipped to [0,1]. -/
def ClimateProfile.climate_harshness (c : ClimateProfile) : ℚ :=
  let comfort_deviation := (max 0 (18 - c.temp_min) + max 0 (c.temp_max - 24)) / 50
  let degree_days_factor := (c.heating_degree_days + c.cooling_degree_days) / 3000
  clip01 (1/2 * comfort_deviation + 1/2 * degree_days_factor)

/-- Socioeconomic and infrastructure context for a cell (`ContextFactors`). -/
structure ContextFactors where
  population_density : ℚ
  urban_rural_index : ℚ
  infrastructure_index : ℚ
  elevation : ℚ
  distance_to_services : ℚ
deriving DecidableEq

/-- `ContextFactors.urbanization_level` is
`0.5 * clip(log10(max(1, density)) / 4, 0, 1) + 0.5 * urban_rural_index`.
The log-scaled density term is transcendental, so it is taken here as the
already-clipped parameter `density_factor` (in [0,1] by `np.clip`); the rest of
the formula is embedded exactly. -/
def ContextFactors.urbanization_level (c : ContextFactors)
    (density_factor : ℚ) : ℚ :=
  1/2 * density_factor + 1/2 * c.urban_rural_index

/-- A geographic cell with optional climate and context data
(`GeographicCell`). -/
structure GeographicCell where
  cell_id : String
  lat : ℚ
  lon : ℚ
  name : Option String := none
  climate : Option ClimateProfile := none
  context : Option ContextFactors := none
deriving DecidableEq

/-- The base (pre-normalization) climate-adjusted allocations of
`GeographicCell.get_climate_weights`, as a function of the harshness and
urbanization scalars. -/
def climate_weights_pre (harshness urbanization : ℚ) : Weights :=
  { electricity := 8/100 + 12/100 * harshness
    cooking_fuel := 5/100 + 5/100 * harshness
    sanitation := 8/100 + 7/100 * urbanization
    drinking_water := 8/100 + 7/100 * urbanization
    flooring := 8/100 + 7/100 * harshness
    nutrition := 15/100
    child_mortality := 15/100
    years_schooling := 8/100
    school_attendance := 8/100
    assets := 7/100 }

/-- The normalized climate-adjusted weight table: every base allocation divided
by the sum of all ten. -/
def get_climate_weights_core (harshness urbanization : ℚ) : Weights :=
  (climate_weights_pre harshness urbanization).normalize

/-- `GeographicCell.get_climate_weights`: raises when the cell has no climate
data; when context is absent, urbanization falls back to 0.5.  The
`density_factor` parameter feeds `urbanization_level` (see its docstring). -/
def GeographicCell.get_climate_weights (cell : GeographicCell)
    (density_factor : ℚ) : Except String Weights :=
  match cell.climate with
  | none => Except.error ("Climate data required to calculate weights")
  | some cl =>
    let harshness := cl.climate_harshness
    let urbanization :=
      match cell.context with
      | some ctx => ctx.urbanization_level density_factor
      | none => 1/2
    Except.ok (get_climate_weights_core harshness urbanization)

/-! ### Spec-side definition for the refinement claim C2 -/

/-- The sum of the ten base allocations, written in the order the claim lists
them. -/
def spec_climate_base_total (h u : ℚ) : ℚ :=
  (8/100 + 12/100 * h) + (5/100 + 5/100 * h) + (8/100 + 7/100 * u) +
    (8/100 + 7/100 * u) + (8/100 + 7/100 * h) + 15/100 + 15/100 +
    8/100 + 8/100 + 7/100

/-- The climate-adjusted table as the specification words it: each of the ten
stated base allocations divided by the sum of all ten. -/
def spec_climate_weights (h u : ℚ) : Weights :=
  { electricity := (8/100 + 12/100 * h) / spec_climate_base_total h u
    cooking_fuel := (5/100 + 5/100 * h) / spec_climate_base_total h u
    sanitation := (8/100 + 7/100 * u) / spec_climate_base_total h u
    drinking_water := (8/100 + 7/100 * u) / spec_climate_base_total h u
    flooring := (8/100 + 7/100 * h) / spec_climate_base_total h u
    nutrition := (15/100) / spec_climate_base_total h u
    child_mortality := (15/100) / spec_climate_base_total h u
    years_schooling := (8/100) / spec_climate_base_total h u
    school_attendance := (8/100) / spec_climate_base_total h u
    assets := (7/100) / spec_climate_base_total h u }

/-- C2: the climate-adjusted weight policy returns exactly the claimed ten base
allocations, each divided by the sum of all ten (for every harshness and
urbanization value, in particular throughout [0,1]). -/
theorem C2_climate_weights_formula (h u : ℚ) :
    get_climate_weights_core h u = spec_climate_weights h u := by
  have htot : (climate_weights_pre h u).total = spec_climate_base_total h u := by
    simp only [Weights.total, climate_weights_pre, spec_climate_base_total]
    ring
  simp only [get_climate_weights_core, Weights.normalize, htot]
  simp only [climate_weights_pre, spec_climate_weights]

/-- C8: pre-normalization monotonicity of the climate-adjusted base
allocations: strictly larger harshness strictly increases electricity and
cooking_fuel, and strictly larger urbanization strictly increases sanitation
and drinking_water, all other inputs held fixed. -/
theorem C8_pre_normalization_monotonicity
    (h₁ h₂ u u' hh : ℚ) (hlt : h₁ < h₂) (hult : u < u') :
    (climate_weights_pre h₁ u).electricity < (climate_weights_pre h₂ u).electricity
    ∧ (climate_weights_pre h₁ u).cooking_fuel < (climate_weights_pre h₂ u).cooking_fuel
    ∧ (climate_weights_pre hh u).sanitation < (climate_weights_pre hh u').sanitation
    ∧ (climate_weights_pre hh u).drinking_water < (climate_weights_pre hh u').drinking_water := by
  refine ⟨?_, ?_, ?_, ?_⟩ <;> simp only [climate_weights_pre] <;> linarith

/-- Witness for C8 at h₁ = 0 < h₂ = 1 and u = 0 < u' = 1. -/
theorem C8_witness :
    (climate_weights_pre 0 0).electricity < (climate_weights_pre 1 0).electricity
    ∧ (climate_weights_pre 0 0).cooking_fuel < (climate_weights_pre 1 0).cooking_fuel
    ∧ (climate_weights_pre 0 0).sanitation < (climate_weights_pre 0 1).sanitation
    ∧ (climate_weights_pre 0 0).drinking_water < (climate_weights_pre 0 1).drinking_water :=
  C8_pre_normalization_monotonicity 0 1 0 1 0 (by norm_num) (by norm_num)

/-! ### Enhanced MPI model (src/models/enhanced_mpi.py) -/

/-- `EnhancedHousingDeprivation`: structure / tenure / cost split.  The Python
dataclass has no `__post_init__`, so construction performs no validation. -/
structure EnhancedHousingDeprivation where
  structure_quality : ℚ
  tenure_security : ℚ
  cost_burden : ℚ
deriving DecidableEq

/-- `EnhancedHousingDeprivation.composite_score`:
structure 40%, tenure 30%, cost 30%. -/
def EnhancedHousingDeprivation.composite_score
    (h : EnhancedHousingDeprivation) : ℚ :=
  4/10 * h.structure_quality + 3/10 * h.tenure_security + 3/10 * h.cost_burden

/-- `DigitalDeprivation` (no construction-time validation in the source). -/
structure DigitalDeprivation where
  no_internet_access : ℚ
  no_device : ℚ
  digital_illiteracy : ℚ
deriving DecidableEq

/-- `DigitalDeprivation.composite_score`: unweighted mean of the three. -/
def DigitalDeprivation.composite_score (d : DigitalDeprivation) : ℚ :=
  (d.no_internet_access + d.no_device + d.digital_illiteracy) / 3

/-- `TransportDeprivation` (no construction-time validation in the source). -/
structure TransportDeprivation where
  excessive_commute_time : ℚ
  transport_cost_burden : ℚ
  no_transport_access : ℚ
deriving DecidableEq

/-- `TransportDeprivation.composite_score`:
access 40%, time 30%, cost 30%. -/
def TransportDeprivation.composite_score (t : TransportDeprivation) : ℚ :=
  4/10 * t.no_transport_access + 3/10 * t.excessive_commute_time +
    3/10 * t.transport_cost_burden

/-- `EconomicVulnerability` (no construction-time validation in the source). -/
structure EconomicVulnerability where
  income_volatility : ℚ
  no_emergency_savings : ℚ
  no_social_protection : ℚ
  high_debt_burden : ℚ
deriving DecidableEq

/-- `EconomicVulnerability.composite_score`: unweighted mean of the four. -/
def EconomicVulnerability.composite_score (e : EconomicVulnerability) : ℚ :=
  (e.income_volatility + e.no_emergency_savings + e.no_social_protection +
    e.high_debt_burden) / 4

/-- `EnvironmentalDeprivation` (no construction-time validation in the
source). -/
structure EnvironmentalDeprivation where
  poor_air_quality : ℚ
  flood_risk : ℚ
  heat_exposure : ℚ
  toxic_proximity : ℚ
deriving DecidableEq

/-- `EnvironmentalDeprivation.composite_score`:
air 30%, heat 30%, flood 25%, toxic 15%. -/
def EnvironmentalDeprivation.composite_score
    (e : EnvironmentalDeprivation) : ℚ :=
  3/10 * e.poor_air_quality + 3/10 * e.heat_exposure + 25/100 * e.flood_risk +
    15/100 * e.toxic_proximity

/-- `EnhancedDeprivationScore`: nine scalar indicators plus the five composite
sub-records. -/
structure EnhancedDeprivationScore where
  nutrition : ℚ
  child_mortality : ℚ
  years_schooling : ℚ
  school_attendance : ℚ
  electricity : ℚ
  sanitation : ℚ
  drinking_water : ℚ
  cooking_fuel : ℚ
  assets : ℚ
  housing : EnhancedHousingDeprivation
  digital : DigitalDeprivation
  transport : TransportDeprivation
  economic_security : EconomicVulnerability
  environment : EnvironmentalDeprivation
deriving DecidableEq

/-- Checked constructor mirroring `EnhancedDeprivationScore.__post_init__`.
The source iterates over `self.__dict__` and checks the range only for values
with `isinstance(value, float)`: the nine scalar indicators.  The composite
sub-records `housing`, `digital`, `transport`, `economic_security` and
`environment` are not floats, so their components are NOT validated. -/
def mkEnhancedDeprivationScore (nutrition child_mortality years_schooling
    school_attendance electricity sanitation drinking_water cooking_fuel
    assets : ℚ) (housing : EnhancedHousingDeprivation)
    (digital : DigitalDeprivation) (transport : TransportDeprivation)
    (economic_security : EconomicVulnerability)
    (environment : EnvironmentalDeprivation) :
    Except String EnhancedDeprivationScore :=
  if ¬ (0 ≤ nutrition ∧ nutrition ≤ 1) then
    Except.error ("nutrition must be between 0 and 1")
  else if ¬ (0 ≤ child_mortality ∧ child_mortality ≤ 1) then
    Except.error ("child_mortality must be between 0 and 1")
  else if ¬ (0 ≤ years_schooling ∧ years_schooling ≤ 1) then
    Except.error ("years_schooling must be between 0 and 1")
  else if ¬ (0 ≤ school_attendance ∧ school_attendance ≤ 1) then
    Except.error ("school_attendance must be between 0 and 1")
  else if ¬ (0 ≤ electricity ∧ electricity ≤ 1) then
    Except.error ("electricity must be between 0 and 1")
  else if ¬ (0 ≤ sanitation ∧ sanitation ≤ 1) then
    Except.error ("sanitation must be between 0 and 1")
  else if ¬ (0 ≤ drinking_water ∧ drinking_water ≤ 1) then
    Except.error ("drinking_water must be between 0 and 1")
  else if ¬ (0 ≤ cooking_fuel ∧ cooking_fuel ≤ 1) then
    Except.error ("cooking_fuel must be between 0 and 1")
  else if ¬ (0 ≤ assets ∧ assets ≤ 1) then
    Except.error ("assets must be between 0 and 1")
  else
    Except.ok ⟨nutrition, child_mortality, years_schooling, school_attendance,
      electricity, sanitation, drinking_water, cooking_fuel, assets,
      housing, digital, transport, economic_security, environment⟩

/-- `EnhancedHouseholdData`: enhanced household record with optional economic
and locational context. -/
structure EnhancedHouseholdData where
  household_id : String
  cell_id : String
  deprivations : EnhancedDeprivationScore
  household_size : ℤ
  num_children : Option ℤ := none
  num_elderly : Option ℤ := none
  monthly_income : Option ℚ := none
  monthly_housing_cost : Option ℚ := none
  monthly_transport_cost : Option ℚ := none
  tenure_type : Option String := none
  urban_sprawl_index : Option ℚ := none
  local_rental_index : Option ℚ := none
deriving DecidableEq

/-- `EnhancedHouseholdData.housing_cost_burden`: Python evaluates
`if self.monthly_income and self.monthly_housing_cost and self.monthly_income > 0`,
where `None` and `0.0` are falsy; only then is `cost / income` returned,
otherwise `None`. -/
def EnhancedHouseholdData.housing_cost_burden
    (hh : EnhancedHouseholdData) : Option ℚ :=
  match hh.monthly_income, hh.monthly_housing_cost with
  | some income, some cost =>
    if income ≠ 0 ∧ cost ≠ 0 ∧ income > 0 then some (cost / income) else none
  | _, _ => none

/-- `EnhancedHouseholdData.transport_cost_burden`: same truthiness pattern with
the transport cost. -/
def EnhancedHouseholdData.transport_cost_burden
    (hh : EnhancedHouseholdData) : Option ℚ :=
  match hh.monthly_income, hh.monthly_transport_cost with
  | some income, some cost =>
    if income ≠ 0 ∧ cost ≠ 0 ∧ income > 0 then some (cost / income) else none
  | _, _ => none

/-- The 14-entry enhanced weight table (dict keyed by the nine scalar
indicators plus housing and the four new composite dimensions). -/
structure EnhancedWeights where
  nutrition : ℚ
  child_mortality : ℚ
  years_schooling : ℚ
  school_attendance : ℚ
  electricity : ℚ
  sanitation : ℚ
  drinking_water : ℚ
  cooking_fuel : ℚ
  assets : ℚ
  housing : ℚ
  digital : ℚ
  transport : ℚ
  economic_security : ℚ
  environment : ℚ
deriving DecidableEq

/-- Sum of all fourteen entries. -/
def EnhancedWeights.total (w : EnhancedWeights) : ℚ :=
  w.nutrition + w.child_mortality + w.years_schooling + w.school_attendance +
    w.electricity + w.sanitation + w.drinking_water + w.cooking_fuel +
    w.assets + w.housing + w.digital + w.transport + w.economic_security +
    w.environment

/-- `EnhancedMPICalculator.ENHANCED_WEIGHTS`. -/
def ENHANCED_WEIGHTS : EnhancedWeights :=
  ⟨75/1000, 75/1000, 75/1000, 75/1000, 6/100, 6/100, 6/100, 5/100, 5/100,
    12/100, 8/100, 8/100, 7/100, 7/100⟩

/-- `EnhancedMPICalculator.POVERTY_CUTOFF = 0.33`. -/
def ENHANCED_POVERTY_CUTOFF : ℚ := 33/100

/-- Divide every enhanced-table entry by the table's total. -/
def EnhancedWeights.normalize (w : EnhancedWeights) : EnhancedWeights :=
  ⟨w.nutrition / w.total, w.child_mortality / w.total,
    w.years_schooling / w.total, w.school_attendance / w.total,
    w.electricity / w.total, w.sanitation / w.total,
    w.drinking_water / w.total, w.cooking_fuel / w.total, w.assets / w.total,
    w.housing / w.total, w.digital / w.total, w.transport / w.total,
    w.economic_security / w.total, w.environment / w.total⟩

/-- The additively adjusted (pre-normalization) enhanced weight table of
`get_context_adjusted_weights`. -/
def context_adjusted_weights_pre (climate_harshness urbanization
    sprawl_index digital_economy_intensity : ℚ) : EnhancedWeights :=
  { ENHANCED_WEIGHTS with
    electricity := ENHANCED_WEIGHTS.electricity + 4/100 * climate_harshness
    cooking_fuel := ENHANCED_WEIGHTS.cooking_fuel + 2/100 * climate_harshness
    housing := ENHANCED_WEIGHTS.housing + 3/100 * climate_harshness
    sanitation := ENHANCED_WEIGHTS.sanitation + 4/100 * urbanization
    drinking_water := ENHANCED_WEIGHTS.drinking_water + 4/100 * urbanization
    transport := ENHANCED_WEIGHTS.transport + 6/100 * sprawl_index
    digital := ENHANCED_WEIGHTS.digital + 5/100 * digital_economy_intensity }

/-- `EnhancedMPICalculator.get_context_adjusted_weights`: copies the base
table, adds the context adjustments (rental_market_tightness is accepted but
does not alter the top-level table), then divides every entry by the sum. -/
def get_context_adjusted_weights (climate_harshness urbanization : ℚ)
    (sprawl_index : ℚ := 1/2) (digital_economy_intensity : ℚ := 1/2)
    (rental_market_tightness : ℚ := 1/2) : EnhancedWeights :=
  let _ := rental_market_tightness
  (context_adjusted_weights_pre climate_harshness urbanization sprawl_index
    digital_economy_intensity).normalize

/-- The housing sub-component weight dict
(keys `structure`, `tenure`, `cost`). -/
structure HousingWeights where
  struct : ℚ
  tenure : ℚ
  cost : ℚ
deriving DecidableEq

/-- Sum of the three housing sub-component entries. -/
def HousingWeights.total (w : HousingWeights) : ℚ :=
  w.struct + w.tenure + w.cost

/-- Divide the three housing sub-component entries by their total. -/
def HousingWeights.normalize (w : HousingWeights) : HousingWeights :=
  ⟨w.struct / w.total, w.tenure / w.total, w.cost / w.total⟩

/-- `EnhancedMPICalculator.calculate_housing_subcomponent_weights`: base
{0.40, 0.30, 0.30}, plus 0.10·harshness on structure and
0.15·rental_tightness on cost, then normalized. -/
def calculate_housing_subcomponent_weights (climate_harshness
    rental_market_tightness : ℚ) : HousingWeights :=
  (⟨40/100 + 10/100 * climate_harshness, 30/100,
    30/100 + 15/100 * rental_market_tightness⟩ : HousingWeights).normalize

/-- `EnhancedMPICalculator.calculate_deprivation_score`: weighted sum over the
nine scalar indicators, the housing sub-component combination, and the four
fixed composite scores; `None` weight arguments select the class defaults. -/
def enhanced_calculate_deprivation_score (d : EnhancedDeprivationScore)
    (weights : Option EnhancedWeights)
    (housing_weights : Option HousingWeights) : ℚ :=
  let w := weights.getD ENHANCED_WEIGHTS
  let hw := housing_weights.getD ⟨4/10, 3/10, 3/10⟩
  let housing_deprivation :=
    hw.struct * d.housing.structure_quality +
      hw.tenure * d.housing.tenure_security + hw.cost * d.housing.cost_burden
  w.nutrition * d.nutrition + w.child_mortality * d.child_mortality +
    w.years_schooling * d.years_schooling +
    w.school_attendance * d.school_attendance +
    w.electricity * d.electricity + w.sanitation * d.sanitation +
    w.drinking_water * d.drinking_water + w.cooking_fuel * d.cooking_fuel +
    w.assets * d.assets + w.housing * housing_deprivation +
    w.digital * d.digital.composite_score +
    w.transport * d.transport.composite_score +
    w.economic_security * d.economic_security.composite_score +
    w.environment * d.environment.composite_score

/-- `EnhancedMPICalculator.calculate_household_mpi`: score, then
`is_poor = score >= cutoff` (cutoff defaulting to 0.33) and
`intensity = score if is_poor else 0.0`. -/
def enhanced_calculate_household_mpi (household : EnhancedHouseholdData)
    (weights : Option EnhancedWeights)
    (housing_weights : Option HousingWeights)
    (cutoff : Option ℚ) : HouseholdMPIResult :=
  let score := enhanced_calculate_deprivation_score household.deprivations
    weights housing_weights
  let c := cutoff.getD ENHANCED_POVERTY_CUTOFF
  ⟨score, score ≥ c, if score ≥ c then score else 0⟩

/-! ### Concrete fixtures and small helpers used by the claim theorems -/

/-- Whether an `Except` value is a success (no exception was raised). -/
def exceptIsOk {α : Type} (e : Except String α) : Bool :=
  match e with
  | Except.ok _ => true
  | Except.error _ => false

/-- A deprivation vector with all ten core indicators equal to 1. -/
def allOnesDeprivations : DeprivationScore := ⟨1, 1, 1, 1, 1, 1, 1, 1, 1, 1⟩

/-- A household carrying `allOnesDeprivations`. -/
def allOnesHousehold : HouseholdData :=
  ⟨"hh-1", "cell-1", allOnesDeprivations, 4, none, none⟩

/-- A concrete climate profile (mild: comfort band 20–22 °C, no degree days),
whose harshness evaluates to 0. -/
def testClimate : ClimateProfile := ⟨0, 0, 0, 0, 0, 20, 22⟩

/-- A cell with climate data but with NO socioeconomic context. -/
def cellNoContext : GeographicCell :=
  { cell_id := "cell-nc", lat := 0, lon := 0, name := none,
    climate := some testClimate, context := none }

/-- A cell with no climate data at all. -/
def cellNoClimate : GeographicCell :=
  { cell_id := "cell-0", lat := 0, lon := 0, name := none,
    climate := none, context := none }

/-- Spec-side definition for claim C10: a cost burden is the cost divided by
the income exactly when the income is present and strictly positive and the
cost is present and nonzero; in every other case it is `none`. -/
def spec_cost_burden (income cost : Option ℚ) : Option ℚ :=
  match income, cost with
  | some i, some c => if 0 < i ∧ c ≠ 0 then some (c / i) else none
  | _, _ => none

/-! ### Claim theorems -/

/-- C3: for every computed ScoreResult, under the default cutoff (0.33, taken
when the cutoff argument is `none`) and under any custom cutoff, `is_poor`
equals `deprivation_score >= cutoff` and `intensity` equals the score when poor
and 0 otherwise — for both the standard and the enhanced scoring engine. -/
theorem C3_classification_consistency (hh : HouseholdData) (w : Option Weights)
    (c : Option ℚ) (ehh : EnhancedHouseholdData) (ew : Option EnhancedWeights)
    (hw : Option HousingWeights) (ec : Option ℚ) :
    ((calculate_household_mpi hh w c).is_poor
      = decide ((calculate_household_mpi hh w c).deprivation_score
          ≥ c.getD (33/100)))
    ∧ ((calculate_household_mpi hh w c).intensity
      = if (calculate_household_mpi hh w c).is_poor
        then (calculate_household_mpi hh w c).deprivation_score else 0)
    ∧ ((enhanced_calculate_household_mpi ehh ew hw ec).is_poor
      = decide ((enhanced_calculate_household_mpi ehh ew hw ec).deprivation_score
          ≥ ec.getD (33/100)))
    ∧ ((enhanced_calculate_household_mpi ehh ew hw ec).intensity
      = if (enhanced_calculate_household_mpi ehh ew hw ec).is_poor
        then (enhanced_calculate_household_mpi ehh ew hw ec).deprivation_score
        else 0) := by
  refine ⟨rfl, ?_, rfl, ?_⟩ <;>
    simp [calculate_household_mpi, calculate_intensity, is_poor,
      enhanced_calculate_household_mpi, POVERTY_CUTOFF, ENHANCED_POVERTY_CUTOFF]

/-- C7: the comparison engine reports `classification_changed = True` iff the
two `is_poor` booleans differ, and the score delta is exactly the adjusted
score minus the standard score. -/
theorem C7_comparison_reports (hh : HouseholdData) (adjusted_weights : Weights) :
    ((compare_standard_vs_adjusted hh adjusted_weights).classification_changed
        = true
      ↔ (compare_standard_vs_adjusted hh adjusted_weights).standard.is_poor
        ≠ (compare_standard_vs_adjusted hh adjusted_weights).adjusted.is_poor)
    ∧ (compare_standard_vs_adjusted hh adjusted_weights).diff_deprivation_score
      = (compare_standard_vs_adjusted hh
          adjusted_weights).adjusted.deprivation_score
        - (compare_standard_vs_adjusted hh
          adjusted_weights).standard.deprivation_score := by
  constructor
  · simp [compare_standard_vs_adjusted, bne_iff_ne]
  · rfl

/-- C9: under any weight table over the ten core indicators whose entries sum
to 1, the all-deprived vector scores exactly 1, is classified poor, and has
intensity 1. -/
theorem C9_all_deprived_extreme (w : Weights) (hw : w.total = 1) :
    (calculate_household_mpi allOnesHousehold (some w) none).deprivation_score = 1
    ∧ (calculate_household_mpi allOnesHousehold (some w) none).is_poor = true
    ∧ (calculate_household_mpi allOnesHousehold (some w) none).intensity = 1 := by
  have hscore :
      calculate_deprivation_score allOnesDeprivations (some w) = 1 := by
    simp only [calculate_deprivation_score, allOnesDeprivations, Option.getD,
      mul_one]
    simpa [Weights.total] using hw
  refine ⟨hscore, ?_, ?_⟩ <;>
    simp [calculate_household_mpi, allOnesHousehold, is_poor,
      calculate_intensity, hscore, POVERTY_CUTOFF] <;> norm_num

/-- Witness for C9 at the standard weight table (whose entries sum to 1). -/
theorem C9_witness :
    (calculate_household_mpi allOnesHousehold (some STANDARD_WEIGHTS)
        none).deprivation_score = 1
    ∧ (calculate_household_mpi allOnesHousehold (some STANDARD_WEIGHTS)
        none).is_poor = true
    ∧ (calculate_household_mpi allOnesHousehold (some STANDARD_WEIGHTS)
        none).intensity = 1 :=
  C9_all_deprived_extreme STANDARD_WEIGHTS
    (by norm_num [STANDARD_WEIGHTS, Weights.total])

/-- C1: population aggregation returns H = num_poor / total, A = the mean of
intensity values restricted to poor households (0 when none is poor),
MPI = H × A exactly, and the zero-valued result (not an error) for the empty
collection. -/
theorem C1_population_aggregation (households : List HouseholdData)
    (w : Option Weights) (c : Option ℚ) :
    (calculate_population_mpi households w c).MPI
      = (calculate_population_mpi households w c).headcount
        * (calculate_population_mpi households w c).intensity
    ∧ (households = [] →
        calculate_population_mpi households w c = ⟨0, 0, 0, 0, 0, none⟩)
    ∧ (households ≠ [] →
        (calculate_population_mpi households w c).headcount
          = ((((households.map (fun hh => calculate_household_mpi hh w c)).filter
              (fun r => r.is_poor)).length : ℚ)) / (households.length : ℚ)
        ∧ (calculate_population_mpi households w c).num_poor
          = ((households.map (fun hh => calculate_household_mpi hh w c)).filter
              (fun r => r.is_poor)).length
        ∧ (calculate_population_mpi households w c).total_population
          = households.length
        ∧ (calculate_population_mpi households w c).intensity
          = (if 0 < ((households.map
                (fun hh => calculate_household_mpi hh w c)).filter
                (fun r => r.is_poor)).length
            then (((households.map
                (fun hh => calculate_household_mpi hh w c)).filter
                (fun r => r.is_poor)).map (fun r => r.intensity)).sum
              / (((households.map
                (fun hh => calculate_household_mpi hh w c)).filter
                (fun r => r.is_poor)).length : ℚ)
            else 0)) := by
  by_cases hE : households = []
  · subst hE
    exact ⟨by simp [calculate_population_mpi], fun _ => rfl,
      fun h => absurd rfl h⟩
  · have hpos : 0 < households.length := List.length_pos.mpr hE
    refine ⟨?_, fun h => absurd h hE, fun _ => ⟨?_, ?_, ?_, ?_⟩⟩ <;>
      simp only [calculate_population_mpi, if_neg hE, if_pos hpos]

/-- Witness for C1: the empty collection yields the zero-valued result, and a
concrete one-household collection satisfies the headcount equation. -/
theorem C1_witness :
    calculate_population_mpi [] none none = ⟨0, 0, 0, 0, 0, none⟩
    ∧ (calculate_population_mpi [allOnesHousehold] none none).headcount
      = (((([allOnesHousehold].map
          (fun hh => calculate_household_mpi hh none none)).filter
          (fun r => r.is_poor)).length : ℚ))
        / (([allOnesHousehold] : List HouseholdData).length : ℚ) :=
  ⟨(C1_population_aggregation [] none none).2.1 rfl,
    ((C1_population_aggregation [allOnesHousehold] none none).2.2
      (by simp)).1⟩

/-- A normalized ten-indicator table has total exactly 1 when the
pre-normalization total is nonzero. -/
theorem weights_normalize_total (w : Weights) (hw : w.total ≠ 0) :
    w.normalize.total = 1 := by
  simp only [Weights.normalize, Weights.total] at hw ⊢
  field_simp

/-- A normalized fourteen-entry enhanced table has total exactly 1 when the
pre-normalization total is nonzero. -/
theorem enhanced_weights_normalize_total (w : EnhancedWeights)
    (hw : w.total ≠ 0) : w.normalize.total = 1 := by
  simp only [EnhancedWeights.normalize, EnhancedWeights.total] at hw ⊢
  field_simp

/-- A normalized housing sub-component table has total exactly 1 when the
pre-normalization total is nonzero. -/
theorem housing_weights_normalize_total (w : HousingWeights)
    (hw : w.total ≠ 0) : w.normalize.total = 1 := by
  simp only [HousingWeights.normalize, HousingWeights.total] at hw ⊢
  field_simp

/-- C4: for context scalars in [0,1], the standard table, the climate-adjusted
table, the enhanced context-adjusted table, and the housing sub-component
table all sum to 1.0 within 1e-9 (in fact exactly 1 over ℚ). -/
theorem C4_weight_tables_normalized (h u s d r : ℚ)
    (hh : 0 ≤ h ∧ h ≤ 1) (hu : 0 ≤ u ∧ u ≤ 1) (hs : 0 ≤ s ∧ s ≤ 1)
    (hd : 0 ≤ d ∧ d ≤ 1) (hr : 0 ≤ r ∧ r ≤ 1) :
    |STANDARD_WEIGHTS.total - 1| ≤ 1/1000000000
    ∧ |(get_climate_weights_core h u).total - 1| ≤ 1/1000000000
    ∧ |(get_context_adjusted_weights h u s d r).total - 1| ≤ 1/1000000000
    ∧ |(calculate_housing_subcomponent_weights h r).total - 1|
        ≤ 1/1000000000 := by
  have h1 : STANDARD_WEIGHTS.total = 1 := by
    norm_num [STANDARD_WEIGHTS, Weights.total]
  have h2 : (get_climate_weights_core h u).total = 1 := by
    apply weights_normalize_total
    have hpos : (0:ℚ) < (climate_weights_pre h u).total := by
      simp only [climate_weights_pre, Weights.total]
      linarith [hh.1, hu.1]
    exact ne_of_gt hpos
  have h3 : (get_context_adjusted_weights h u s d r).total = 1 := by
    apply enhanced_weights_normalize_total
    have hpos : (0:ℚ)
        < (context_adjusted_weights_pre h u s d).total := by
      simp only [context_adjusted_weights_pre, EnhancedWeights.total,
        ENHANCED_WEIGHTS]
      linarith [hh.1, hu.1, hs.1, hd.1]
    exact ne_of_gt hpos
  have h4 : (calculate_housing_subcomponent_weights h r).total = 1 := by
    apply housing_weights_normalize_total
    have hpos : (0:ℚ) < (40/100 + 10/100 * h) + 30/100
        + (30/100 + 15/100 * r) := by
      linarith [hh.1, hr.1]
    simpa [HousingWeights.total] using ne_of_gt hpos
  rw [h1, h2, h3, h4]
  norm_num

/-- Witness for C4 at h = u = s = d = r = 1/2. -/
theorem C4_witness :
    |STANDARD_WEIGHTS.total - 1| ≤ 1/1000000000
    ∧ |(get_climate_weights_core (1/2) (1/2)).total - 1| ≤ 1/1000000000
    ∧ |(get_context_adjusted_weights (1/2) (1/2) (1/2) (1/2) (1/2)).total - 1|
        ≤ 1/1000000000
    ∧ |(calculate_housing_subcomponent_weights (1/2) (1/2)).total - 1|
        ≤ 1/1000000000 :=
  C4_weight_tables_normalized (1/2) (1/2) (1/2) (1/2) (1/2)
    (by norm_num) (by norm_num) (by norm_num) (by norm_num) (by norm_num)

/-- C5 counterexample: an enhanced deprivation score whose housing sub-vector
carries the scalar component structure_quality = 2, which lies outside [0,1],
is constructed WITHOUT any range-violation error (`__post_init__` only checks
float-typed fields, and the composite sub-records are not floats). -/
theorem C5_counterexample :
    exceptIsOk (mkEnhancedDeprivationScore 0 0 0 0 0 0 0 0 0 ⟨2, 0, 0⟩
      ⟨0, 0, 0⟩ ⟨0, 0, 0⟩ ⟨0, 0, 0, 0⟩ ⟨0, 0, 0, 0⟩) = true
    ∧ ¬ (0 ≤ (2:ℚ) ∧ (2:ℚ) ≤ 1) := by
  constructor
  · norm_num [mkEnhancedDeprivationScore, exceptIsOk]
  · norm_num

set_option maxHeartbeats 2000000 in
/-- C5 (amended): a standard DeprivationVector construction succeeds exactly
when all ten scalar indicators lie in [0,1], and an enhanced one succeeds
exactly when its nine top-level scalar indicators lie in [0,1] — the scalar
components of the composite housing/digital/transport/economic/environmental
sub-vectors are not validated at construction (and no range error is raised
later: scoring is a total function). -/
theorem C5_amended_construction_validation
    (n cm ys sa e s dw f cf a en ecm eys esa ee es edw ecf ea : ℚ)
    (housing : EnhancedHousingDeprivation) (digital : DigitalDeprivation)
    (transport : TransportDeprivation) (econ : EconomicVulnerability)
    (env : EnvironmentalDeprivation) :
    (exceptIsOk (mkDeprivationScore n cm ys sa e s dw f cf a) = true
      ↔ ((0 ≤ n ∧ n ≤ 1) ∧ (0 ≤ cm ∧ cm ≤ 1) ∧ (0 ≤ ys ∧ ys ≤ 1)
        ∧ (0 ≤ sa ∧ sa ≤ 1) ∧ (0 ≤ e ∧ e ≤ 1) ∧ (0 ≤ s ∧ s ≤ 1)
        ∧ (0 ≤ dw ∧ dw ≤ 1) ∧ (0 ≤ f ∧ f ≤ 1) ∧ (0 ≤ cf ∧ cf ≤ 1)
        ∧ (0 ≤ a ∧ a ≤ 1)))
    ∧ (exceptIsOk (mkEnhancedDeprivationScore en ecm eys esa ee es edw ecf ea
          housing digital transport econ env) = true
      ↔ ((0 ≤ en ∧ en ≤ 1) ∧ (0 ≤ ecm ∧ ecm ≤ 1) ∧ (0 ≤ eys ∧ eys ≤ 1)
        ∧ (0 ≤ esa ∧ esa ≤ 1) ∧ (0 ≤ ee ∧ ee ≤ 1) ∧ (0 ≤ es ∧ es ≤ 1)
        ∧ (0 ≤ edw ∧ edw ≤ 1) ∧ (0 ≤ ecf ∧ ecf ≤ 1)
        ∧ (0 ≤ ea ∧ ea ≤ 1))) := by
  constructor
  · constructor
    · intro hok
      rw [mkDeprivationScore] at hok
      split_ifs at hok with h1 h2 h3 h4 h5 h6 h7 h8 h9 h10 <;>
        first
        | exact ⟨h1, h2, h3, h4, h5, h6, h7, h8, h9, h10⟩
        | simp [exceptIsOk] at hok
    · rintro ⟨g1, g2, g3, g4, g5, g6, g7, g8, g9, g10⟩
      simp only [mkDeprivationScore, if_neg (not_not_intro g1),
        if_neg (not_not_intro g2), if_neg (not_not_intro g3),
        if_neg (not_not_intro g4), if_neg (not_not_intro g5),
        if_neg (not_not_intro g6), if_neg (not_not_intro g7),
        if_neg (not_not_intro g8), if_neg (not_not_intro g9),
        if_neg (not_not_intro g10)]
      rfl
  · constructor
    · intro hok
      rw [mkEnhancedDeprivationScore] at hok
      split_ifs at hok with h1 h2 h3 h4 h5 h6 h7 h8 h9 <;>
        first
        | exact ⟨h1, h2, h3, h4, h5, h6, h7, h8, h9⟩
        | simp [exceptIsOk] at hok
    · rintro ⟨g1, g2, g3, g4, g5, g6, g7, g8, g9⟩
      simp only [mkEnhancedDeprivationScore, if_neg (not_not_intro g1),
        if_neg (not_not_intro g2), if_neg (not_not_intro g3),
        if_neg (not_not_intro g4), if_neg (not_not_intro g5),
        if_neg (not_not_intro g6), if_neg (not_not_intro g7),
        if_neg (not_not_intro g8), if_neg (not_not_intro g9)]
      rfl

/-- C6 counterexample: a cell that is missing its socioeconomic context (so
its urbanization scalar cannot be derived) still returns a weight table with
no error, silently substituting urbanization = 0.5. -/
theorem C6_counterexample :
    cellNoContext.context = none
    ∧ cellNoContext.get_climate_weights 0
      = Except.ok
          (get_climate_weights_core testClimate.climate_harshness (1/2)) :=
  ⟨rfl, rfl⟩

/-- C6 (amended): requesting climate weights with no climate data raises an
error immediately; but when climate data is present and only the
socioeconomic context is absent, no error is raised and the urbanization
scalar is silently defaulted to 0.5; with both present the context's derived
urbanization is used. -/
theorem C6_amended_missing_context (cell : GeographicCell) (df : ℚ) :
    (cell.climate = none →
      cell.get_climate_weights df
        = Except.error ("Climate data required to calculate weights"))
    ∧ (∀ cp, cell.climate = some cp → cell.context = none →
        cell.get_climate_weights df
          = Except.ok (get_climate_weights_core cp.climate_harshness (1/2)))
    ∧ (∀ cp ctx, cell.climate = some cp → cell.context = some ctx →
        cell.get_climate_weights df
          = Except.ok (get_climate_weights_core cp.climate_harshness
              (ctx.urbanization_level df))) := by
  refine ⟨fun hc => ?_, fun cp hc hctx => ?_, fun cp ctx hc hctx => ?_⟩
  · simp [GeographicCell.get_climate_weights, hc]
  · simp [GeographicCell.get_climate_weights, hc, hctx]
  · simp [GeographicCell.get_climate_weights, hc, hctx]

/-- Witness for C6 (amended): the missing-climate branch errors on a concrete
cell. -/
theorem C6_witness :
    cellNoClimate.get_climate_weights 0
      = Except.error ("Climate data required to calculate weights") :=
  (C6_amended_missing_context cellNoClimate 0).1 rfl

/-- C10: the two cost-burden properties are total and return the cost divided
by the income exactly when the income is present and strictly positive and the
cost is present and nonzero, and `none` in every other case (in particular
when the cost figure is exactly 0, which Python treats as falsy). -/
theorem C10_cost_burden_totality (hh : EnhancedHouseholdData) :
    hh.housing_cost_burden
      = spec_cost_burden hh.monthly_income hh.monthly_housing_cost
    ∧ hh.transport_cost_burden
      = spec_cost_burden hh.monthly_income hh.monthly_transport_cost := by
  constructor
  · unfold EnhancedHouseholdData.housing_cost_burden spec_cost_burden
    rcases hmi : hh.monthly_income with _ | income <;>
      rcases hmc : hh.monthly_housing_cost with _ | cost <;>
        try rfl
    exact if_congr
      ⟨fun hcnd => ⟨hcnd.2.2, hcnd.2.1⟩,
        fun hcnd => ⟨ne_of_gt hcnd.1, hcnd.2, hcnd.1⟩⟩ rfl rfl
  · unfold EnhancedHouseholdData.transport_cost_burden spec_cost_burden
    rcases hmi : hh.monthly_income with _ | income <;>
      rcases hmc : hh.monthly_transport_cost with _ | cost <;>
        try rfl
    exact if_congr
      ⟨fun hcnd => ⟨hcnd.2.2, hcnd.2.1⟩,
        fun hcnd => ⟨ne_of_gt hcnd.1, hcnd.2, hcnd.1⟩⟩ rfl rfl
